import Mathlib

/-
Verification of the streaming-chat session state machine of the
cortexAI-desktop front end.

The development shallowly embeds the two revisions of the Chat component
found in the repository:

* namespace `ChatTsx`  — the revision in `src/Chat.tsx`, which registers
  globally-named event listeners (`chat-response`, `chat-complete`,
  `chat-cancelled`) and commits the locally accumulated buffer on
  completion;
* namespace `Part009`  — the revision in `unnamed/part_009`, which scopes
  every event name by a per-instance id (`chat-response-${instanceId}`)
  and commits the completion event payload.

SolidJS signals are modelled as fields of an explicit `ChatState` record;
each event listener or user operation becomes a pure state-transition
function.  Awaited backend calls (`invoke`) are modelled by `Except`
parameters carrying the call outcome.  JavaScript string `.trim()` is
modelled by the executable `jsTrim` (Lean's built-in `String.trim` is
semantically the same on the strings involved but does not reduce in the
kernel).
-/

namespace CortexChat

/-- Models JavaScript `String.prototype.trim`: strips whitespace from both
ends of the string. -/
def jsTrim (s : String) : String :=
  ⟨((s.data.dropWhile Char.isWhitespace).reverse.dropWhile Char.isWhitespace).reverse⟩

/-- Models JavaScript truthiness of an optional string field: `undefined`
and the empty string are falsy. -/
def truthyStr : Option String → Bool
  | some s => s ≠ ""
  | none => false

/-- The `ChatMessage` interface of Chat.tsx.  Optional TS fields become
`Option`. -/
structure ChatMessage where
  id : Option String
  role : String
  content : String
  isPinned : Option Bool
  systemPromptType : Option String
deriving Repr, DecidableEq

/-- The `FollowUpSuggestion` interface (field `type_` matches the Rust
field name, as in the source). -/
structure FollowUpSuggestion where
  text : String
  type_ : String
deriving Repr, DecidableEq

/-- The `ChatResponse` event payload: the streamed / final message, the
done flag, and optional follow-up suggestions. -/
structure ChatResponse where
  message : ChatMessage
  done : Bool
  follow_ups : Option (List FollowUpSuggestion)
deriving Repr, DecidableEq

/-- The `SearchResult` interface of Chat.tsx. -/
structure SearchResult where
  title : String
  url : String
  snippet : String
  source_type : Option String
  authors : Option (List String)
  publish_date : Option String
  doi : Option String
deriving Repr, DecidableEq

/-- The `SearchResponse` interface of Chat.tsx. -/
structure SearchResponse where
  results : List SearchResult
  query : String
deriving Repr, DecidableEq

/-- The `ModelParams` interface of ChatSettings.tsx; JS numbers carried as
rationals. -/
structure ModelParams where
  temperature : ℚ
  top_p : ℚ
  top_k : ℚ
  repeat_penalty : ℚ
  max_tokens : ℚ
deriving Repr, DecidableEq

/-- The initial `modelParams` signal value of the Chat component. -/
def defaultModelParams : ModelParams :=
  { temperature := 0.7, top_p := 0.9, top_k := 40, repeat_penalty := 1.1,
    max_tokens := 2048 }

/-- The `ChatProps` interface of the Chat component. -/
structure ChatProps where
  modelName : String
  chatId : Option String
deriving Repr, DecidableEq

/-- The signal state of one mounted Chat component instance (one chat
session).  Only the signals the session state machine reads or writes are
modelled; presentational signals (dialog visibility, dark mode, scroll
refs) have no bearing on any claim. -/
structure ChatState where
  messages : List ChatMessage
  currentInput : String
  isGenerating : Bool
  currentResponse : String
  error : Option String
  followUps : List FollowUpSuggestion
deriving Repr, DecidableEq

/-- The capability flags of a focus mode (FocusModeConfig.ts). -/
structure FocusCapabilities where
  webSearch : Bool
  academicSearch : Bool
deriving Repr, DecidableEq

/-- One focus-mode entry of FocusModeConfig.ts.  The `icon` component is
presentational and omitted; the multi-kilobyte `systemPrompt` instruction
texts are constant strings inspected by no claim and are abbreviated to
their opening sentence. -/
structure FocusModeEntry where
  id : String
  name : String
  description : String
  systemPrompt : String
  capabilities : FocusCapabilities
deriving Repr, DecidableEq

/-- The `focusModes` array of FocusModeConfig.ts. -/
def focusModes : List FocusModeEntry :=
  [{ id := "chat", name := "Chat",
     description := "Comprehensive AI assistant for general queries",
     systemPrompt := "You are an advanced AI assistant designed to provide comprehensive, accurate, and well-structured responses.",
     capabilities := { webSearch := false, academicSearch := false } },
   { id := "web", name := "Internet",
     description := "Real-time internet research and analysis",
     systemPrompt := "You are an advanced AI research assistant with real-time web search capabilities.",
     capabilities := { webSearch := true, academicSearch := false } },
   { id := "academic", name := "Academic",
     description := "Research papers and scholarly analysis",
     systemPrompt := "You are an expert academic research assistant designed to provide scholarly analysis at the level of leading research platforms.",
     capabilities := { webSearch := true, academicSearch := true } },
   { id := "coding", name := "Coding Assistant",
     description := "Expert programming and software development assistance",
     systemPrompt := "You are an expert programming assistant designed to provide comprehensive technical guidance.",
     capabilities := { webSearch := true, academicSearch := false } }]

/-- The component's `getCurrentMode`: find the focus mode whose id matches
the `mode` signal, falling back to `focusModes[0]`. -/
def getCurrentMode (modeId : String) : FocusModeEntry :=
  (focusModes.find? (fun m => m.id = modeId)).getD
    { id := "", name := "", description := "", systemPrompt := "",
      capabilities := { webSearch := false, academicSearch := false } }

/-- The component's `isWebSearchEnabled`. -/
def isWebSearchEnabled (modeId : String) : Bool :=
  (getCurrentMode modeId).capabilities.webSearch

/-- A dispatched generation request: the argument record of the `chat`
backend command.  Fields only one revision passes are `Option`-valued
(`systemPromptType` / `webSearch` in Chat.tsx, `instanceId` in
part_009). -/
structure GenerationRequest where
  model : String
  messages : List ChatMessage
  params : ModelParams
  chatId : Option String
  systemPrompt : String
  systemPromptType : Option String
  webSearch : Option Bool
  instanceId : Option String
deriving Repr, DecidableEq

end CortexChat

namespace CortexChat.ChatTsx

/-- The `chat-response` listener of Chat.tsx: append the delta text to the
`currentResponse` buffer verbatim. -/
def chatResponseListener (st : ChatState) (ev : ChatResponse) : ChatState :=
  { st with currentResponse := st.currentResponse ++ ev.message.content }

/-- The `chat-complete` listener of Chat.tsx: commit the accumulated
buffer as a new assistant message when it is non-empty after trimming,
clear the buffer, record the follow-ups of the event, and clear the
generation flag. -/
def chatCompleteListener (st : ChatState) (ev : ChatResponse) : ChatState :=
  let finalResponse := st.currentResponse
  let st1 :=
    if jsTrim finalResponse ≠ "" then
      { st with messages := st.messages ++
          [{ id := none, role := "assistant", content := finalResponse,
             isPinned := none, systemPromptType := none }] }
    else st
  { st1 with currentResponse := "", followUps := ev.follow_ups.getD [],
             isGenerating := false }

/-- The `chat-cancelled` listener of Chat.tsx: clear the generation flag
and append a cancellation marker to the buffer.  The buffer is neither
committed nor cleared. -/
def chatCancelledListener (st : ChatState) : ChatState :=
  { st with isGenerating := false,
            currentResponse := st.currentResponse ++ "\n[Generation cancelled]" }

end CortexChat.ChatTsx

namespace CortexChat.Part009

/-- The `chat-response-${instanceId}` listener of part_009: append the
delta text when it is truthy (non-empty). -/
def chatResponseListener (st : ChatState) (ev : ChatResponse) : ChatState :=
  if ev.message.content ≠ "" then
    { st with currentResponse := st.currentResponse ++ ev.message.content }
  else st

/-- The `chat-complete-${instanceId}` listener of part_009: append the
final message content carried by the event (unconditionally), clear the
buffer and the generation flag, and record follow-ups when present. -/
def chatCompleteListener (st : ChatState) (ev : ChatResponse) : ChatState :=
  let st1 :=
    { st with
      messages := st.messages ++
        [{ id := none, role := "assistant", content := (ev.message.content),
           isPinned := some false, systemPromptType := none }],
      currentResponse := "", isGenerating := false }
  match ev.follow_ups with
  | some fs => { st1 with followUps := fs }
  | none => st1

/-- The `chat-cancelled-${instanceId}` listener of part_009: clear the
generation flag; when the buffer is non-empty, commit it as an assistant
message and clear it. -/
def chatCancelledListener (st : ChatState) : ChatState :=
  let st1 := { st with isGenerating := false }
  if st1.currentResponse ≠ "" then
    { st1 with
      messages := st1.messages ++
        [{ id := none, role := "assistant", content := (st1.currentResponse),
           isPinned := some false, systemPromptType := none }],
      currentResponse := "" }
  else st1

end CortexChat.Part009

namespace CortexChat

/-- The history-loading `createEffect` of the Chat component: when a chat
id is present, fetch its messages from the storage backend; on success
replace the message list and clear the error and the buffer, on failure
set a visible error (the message list is left as it was).  Without a chat
id the list and buffer are cleared. -/
def loadChatHistory (st : ChatState) (chatId : Option String)
    (fetched : Except String (List ChatMessage)) : ChatState :=
  if truthyStr chatId then
    match fetched with
    | Except.ok chatMessages =>
      { st with messages := chatMessages, error := none, currentResponse := "" }
    | Except.error e =>
      { st with error := some ("Failed to load chat history: " ++ e) }
  else
    { st with messages := [], currentResponse := "" }

/-- The `toggleMessagePin` handler: await the backend toggle first, then
flip `isPinned` locally; a backend failure sets a visible error and leaves
the list untouched.  An out-of-range index makes the JS code read a field
of `undefined`, which throws before the backend call and is caught by the
same handler. -/
def toggleMessagePin (st : ChatState) (index : Nat)
    (backend : Except String Unit) : ChatState :=
  match st.messages.get? index with
  | some message =>
    match backend with
    | Except.ok _ =>
      { st with
        messages := st.messages.set index
          { message with isPinned := some (!(message.isPinned.getD false)) } }
    | Except.error e =>
      { st with error := some ("Failed to toggle message pin: " ++ e) }
  | none =>
    { st with error := some ("Failed to toggle message pin: TypeError") }

/-- The `getPinnedMessages` helper of the Chat component. -/
def getPinnedMessages (st : ChatState) : List ChatMessage :=
  st.messages.filter (fun msg => msg.isPinned.getD false)

/-- The citation string built for one search result in the web-search
branch of Chat.tsx `sendMessage`, with academic metadata appended when
present (JS truthiness: absent or empty optional fields are skipped). -/
def buildCitation (result : SearchResult) : String :=
  let citation := "[" ++ result.title ++ "](" ++ result.url ++ ")\n" ++ result.snippet
  if result.source_type = some "academic" then
    let citation :=
      match result.authors with
      | some authors =>
        if authors.length > 0 then
          citation ++ "\nAuthors: " ++ String.intercalate ", " authors
        else citation
      | none => citation
    let citation :=
      if truthyStr result.publish_date then
        citation ++ "\nPublished: " ++ result.publish_date.getD ""
      else citation
    if truthyStr result.doi then citation ++ "\nDOI: " ++ result.doi.getD ""
    else citation
  else citation

/-- The general-mode search prompt template of Chat.tsx `sendMessage`. -/
def generalSearchPrompt (userInput searchContext : String) : String :=
  "I want you to act as a helpful AI assistant. I will provide you with search results and a query. Your task is to analyze these search results and provide a comprehensive, well-structured response that answers the query. Include relevant citations to the sources.\n\nQuery: "
  ++ userInput
  ++ "\n\nSearch Results:\n"
  ++ searchContext
  ++ "\n\nPlease provide a detailed response that:\n1. Summarizes the key information from the search results\n2. Directly answers the query\n3. Includes relevant citations using [Source Title](URL) format\n4. Mentions any limitations or uncertainties in the information\n5. Provides a balanced view of the topic"

/-- The `generateAcademicPrompt` template of AcademicPrompts.ts
(unnamed/part_005); the constant instruction text is abbreviated to its
opening sentence, the query / context placement follows the source. -/
def generateAcademicPrompt (query searchContext : String) : String :=
  "You are an expert academic research assistant. Your task is to analyze scholarly sources and create a comprehensive, well-structured response that matches the quality of top academic research platforms.\n\nQuery: "
  ++ query
  ++ "\n\nAcademic Sources:\n"
  ++ searchContext
  ++ "\n\nRemember to:\n- Begin with a concise overview\n- Use consistent academic citation format\n- Include specific examples and data\n- End with related questions for further exploration"

end CortexChat

namespace CortexChat.ChatTsx

/-- The `sendMessage` handler of Chat.tsx.  Awaited backend calls are
modelled by outcome parameters: `searchOutcome` for the `search` command
(consulted only when the focus mode enables web search) and `chatOutcome`
for the `chat` command; `uuid` stands for `crypto.randomUUID()`.  Returns
the successor state together with the list of generation requests it
dispatched (empty when the guard fires or a backend call rejects). -/
def sendMessage (props : ChatProps) (modeId : String) (searchModeSig : String)
    (params : ModelParams) (uuid : String)
    (searchOutcome : Except String SearchResponse)
    (chatOutcome : Except String Unit)
    (st : ChatState) : ChatState × List GenerationRequest :=
  let userInput := jsTrim st.currentInput
  if userInput = "" ∨ st.isGenerating then (st, [])
  else
    let currentMode := getCurrentMode modeId
    let systemPrompt := currentMode.systemPrompt
    let userMessage : ChatMessage :=
      { id := some uuid, role := "user", content := userInput,
        isPinned := some false, systemPromptType := some (currentMode.id) }
    let st1 := { st with currentInput := "", isGenerating := true, error := none }
    if isWebSearchEnabled modeId then
      match searchOutcome with
      | Except.error e =>
        ({ st1 with error := some ("Search failed: " ++ e), isGenerating := false }, [])
      | Except.ok searchResponse =>
        let searchContext :=
          String.intercalate "\n\n" (searchResponse.results.map buildCitation)
        let searchPrompt :=
          if searchModeSig = "academic" then generateAcademicPrompt userInput searchContext
          else generalSearchPrompt userInput searchContext
        let st2 := { st1 with messages := st1.messages ++ [userMessage] }
        let req : GenerationRequest :=
          { model := props.modelName,
            messages := st2.messages ++
              [userMessage,
               { id := none, role := "system", content := searchPrompt,
                 isPinned := none, systemPromptType := none }],
            params := params, chatId := props.chatId,
            systemPrompt := systemPrompt, systemPromptType := none,
            webSearch := some true, instanceId := none }
        match chatOutcome with
        | Except.ok _ => (st2, [req])
        | Except.error e =>
          ({ st2 with error := some ("Search failed: " ++ e), isGenerating := false }, [])
    else
      let st2 := { st1 with messages := st1.messages ++ [userMessage] }
      let req : GenerationRequest :=
        { model := props.modelName,
          messages := st2.messages ++ [userMessage],
          params := params, chatId := props.chatId,
          systemPrompt := systemPrompt, systemPromptType := some (currentMode.id),
          webSearch := none, instanceId := none }
      match chatOutcome with
      | Except.ok _ => (st2, [req])
      | Except.error e =>
        ({ st2 with error := some ("Failed to send message: " ++ e), isGenerating := false }, [])

end CortexChat.ChatTsx

namespace CortexChat.Part009

/-- The `sendMessage` handler of part_009: no retrieval branch; the user
message carries no client id; follow-ups are cleared; the request is
tagged with the per-instance correlation token. -/
def sendMessage (props : ChatProps) (modeId : String) (selectedModel : String)
    (params : ModelParams) (instanceId : String)
    (chatOutcome : Except String Unit)
    (st : ChatState) : ChatState × List GenerationRequest :=
  let input := jsTrim st.currentInput
  if input = "" ∨ st.isGenerating then (st, [])
  else
    let st1 :=
      { st with currentInput := "", isGenerating := true, followUps := [],
                error := none }
    let newMessage : ChatMessage :=
      { id := none, role := "user", content := input, isPinned := some false,
        systemPromptType := none }
    let st2 := { st1 with messages := st1.messages ++ [newMessage] }
    let req : GenerationRequest :=
      { model := if props.modelName ≠ "" then props.modelName else selectedModel,
        messages := st2.messages ++ [newMessage],
        params := params, chatId := props.chatId,
        systemPrompt := (getCurrentMode modeId).systemPrompt,
        systemPromptType := some ((getCurrentMode modeId).id),
        webSearch := none, instanceId := some instanceId }
    match chatOutcome with
    | Except.ok _ => (st2, [req])
    | Except.error _ =>
      ({ st2 with error := some "Failed to send message. Please try again.",
                  isGenerating := false }, [])

end CortexChat.Part009

namespace CortexChat

/-- A backend stream event, tagged with the correlation token (instance
id) of the generation attempt it belongs to. -/
inductive BackendEvent where
  | response (tid : String) (payload : ChatResponse)
  | complete (tid : String) (payload : ChatResponse)
  | cancelled (tid : String)
deriving Repr, DecidableEq

/-- The correlation token an event is tagged with. -/
def BackendEvent.tid : BackendEvent → String
  | response t _ => t
  | complete t _ => t
  | cancelled t => t

/-- One mounted Chat component instance together with its correlation
token (`instanceId` in part_009). -/
structure SessionInstance where
  instanceId : String
  state : ChatState
deriving Repr, DecidableEq

/-- Event delivery to one instance under the part_009 listener
registration: the listener for kind k is registered on the channel name
k-${instanceId}, so an event on channel k-${tid} fires exactly when the
scoped names coincide. -/
def deliverScoped (s : SessionInstance) (e : BackendEvent) : SessionInstance :=
  match e with
  | BackendEvent.response t p =>
    if "chat-response-" ++ t = "chat-response-" ++ s.instanceId then
      { s with state := Part009.chatResponseListener s.state p }
    else s
  | BackendEvent.complete t p =>
    if "chat-complete-" ++ t = "chat-complete-" ++ s.instanceId then
      { s with state := Part009.chatCompleteListener s.state p }
    else s
  | BackendEvent.cancelled t =>
    if "chat-cancelled-" ++ t = "chat-cancelled-" ++ s.instanceId then
      { s with state := Part009.chatCancelledListener s.state }
    else s

/-- Event delivery to one instance under the Chat.tsx listener
registration: the channel names carry no instance id, so every mounted
instance consumes every event regardless of which generation it belongs
to. -/
def deliverGlobal (s : SessionInstance) (e : BackendEvent) : SessionInstance :=
  match e with
  | BackendEvent.response _ p => { s with state := ChatTsx.chatResponseListener s.state p }
  | BackendEvent.complete _ p => { s with state := ChatTsx.chatCompleteListener s.state p }
  | BackendEvent.cancelled _ => { s with state := ChatTsx.chatCancelledListener s.state }

/-- Two concurrently mounted chat sessions. -/
structure TwoSessions where
  a : SessionInstance
  b : SessionInstance
deriving Repr, DecidableEq

/-- Deliver one event to both sessions (part_009 scoped registration). -/
def deliverScopedWorld (w : TwoSessions) (e : BackendEvent) : TwoSessions :=
  { a := deliverScoped w.a e, b := deliverScoped w.b e }

/-- Deliver a list of events in order (part_009 scoped registration). -/
def runScopedWorld (w : TwoSessions) (es : List BackendEvent) : TwoSessions :=
  es.foldl deliverScopedWorld w

/-- Deliver one event to both sessions (Chat.tsx global registration). -/
def deliverGlobalWorld (w : TwoSessions) (e : BackendEvent) : TwoSessions :=
  { a := deliverGlobal w.a e, b := deliverGlobal w.b e }

/-- The concatenation, in delivery order, of the delta texts of a list of
content-delta events. -/
def concatDeltas : List ChatResponse → String
  | [] => ""
  | d :: ds => d.message.content ++ concatDeltas ds

/-- Run a list of content-delta events through the Chat.tsx accumulator. -/
def runDeltasA (st : ChatState) (ds : List ChatResponse) : ChatState :=
  ds.foldl ChatTsx.chatResponseListener st

/-- Run a list of content-delta events through the part_009 accumulator. -/
def runDeltasB (st : ChatState) (ds : List ChatResponse) : ChatState :=
  ds.foldl Part009.chatResponseListener st

/-- Two messages agree on every field except possibly `isPinned`. -/
def eqExceptPin (m n : ChatMessage) : Prop :=
  n.id = m.id ∧ n.role = m.role ∧ n.content = m.content ∧
  n.systemPromptType = m.systemPromptType

/-- The old message list survives inside the new one: nothing is removed
or reordered, and each surviving position differs at most in its
`isPinned` flag. -/
def preservesMessages (old new : List ChatMessage) : Prop :=
  old.length ≤ new.length ∧
  ∀ i : Fin old.length, ∀ h : i.val < new.length,
    eqExceptPin (old.get i) (new.get ⟨i.val, h⟩)

/-- The (normalized) pin flag of the message at a position, when the
position exists. -/
def pinnedAt (l : List ChatMessage) (i : Nat) : Option Bool :=
  (l.get? i).map (fun m => m.isPinned.getD false)

end CortexChat

namespace CortexChat

/-- Trimming the empty string yields the empty string. -/
lemma jsTrim_empty : jsTrim "" = "" := rfl

/-- Running deltas through the Chat.tsx accumulator appends their
concatenation to the buffer and changes nothing else. -/
lemma runDeltasA_eq (ds : List ChatResponse) (st : ChatState) :
    runDeltasA st ds =
      { st with currentResponse := st.currentResponse ++ concatDeltas ds } := by
  induction ds generalizing st with
  | nil =>
    show st = _
    simp [concatDeltas, String.append_empty]
  | cons d ds ih =>
    have h1 : runDeltasA st (d :: ds) =
        runDeltasA (ChatTsx.chatResponseListener st d) ds := rfl
    rw [h1, ih]
    simp [ChatTsx.chatResponseListener, concatDeltas, String.append_assoc]

/-- The part_009 delta listener never touches the message list. -/
lemma runDeltasB_messages (ds : List ChatResponse) (st : ChatState) :
    (runDeltasB st ds).messages = st.messages := by
  induction ds generalizing st with
  | nil => rfl
  | cons d ds ih =>
    have h1 : runDeltasB st (d :: ds) =
        runDeltasB (Part009.chatResponseListener st d) ds := rfl
    rw [h1, ih]
    unfold Part009.chatResponseListener
    split <;> rfl

/-- The Chat.tsx completion listener commits the buffer when it trims
non-empty. -/
lemma chatTsx_complete_commits (st : ChatState) (ev : ChatResponse)
    (hne : jsTrim st.currentResponse ≠ "") :
    (ChatTsx.chatCompleteListener st ev).messages =
      st.messages ++
        [{ id := none, role := "assistant", content := st.currentResponse,
           isPinned := none, systemPromptType := none }] := by
  unfold ChatTsx.chatCompleteListener
  simp [hne]

/-- The Chat.tsx completion listener commits nothing when the buffer trims
empty. -/
lemma chatTsx_complete_skips (st : ChatState) (ev : ChatResponse)
    (he : jsTrim st.currentResponse = "") :
    (ChatTsx.chatCompleteListener st ev).messages = st.messages := by
  unfold ChatTsx.chatCompleteListener
  simp [he]

/-- The Chat.tsx completion listener clears the buffer and preserves the
error signal. -/
lemma chatTsx_complete_clears (st : ChatState) (ev : ChatResponse) :
    (ChatTsx.chatCompleteListener st ev).currentResponse = "" ∧
    (ChatTsx.chatCompleteListener st ev).error = st.error := by
  unfold ChatTsx.chatCompleteListener
  by_cases h : jsTrim st.currentResponse ≠ "" <;> simp [h]

/-- A content-delta event payload carrying the given text. -/
def deltaEvent (s : String) : ChatResponse :=
  { message := { id := none, role := "assistant", content := s,
                 isPinned := none, systemPromptType := none },
    done := false, follow_ups := none }

/-- A freshly dispatched generation: empty buffer, generation flag set. -/
def freshState : ChatState :=
  { messages := [], currentInput := "", isGenerating := true,
    currentResponse := "", error := none, followUps := [] }

/-- Claim C1: for every sequence of content-delta events delivered for one
correlation token followed by a completion event, the assistant message
committed into the message list equals the concatenation of the delta
texts in delivery order — no delta dropped, reordered, or deduplicated
(Chat.tsx revision; the buffer starts empty at dispatch). -/
theorem c1_delta_concatenation (st : ChatState) (ds : List ChatResponse)
    (ev : ChatResponse) (hbuf : st.currentResponse = "") :
    (runDeltasA st ds).currentResponse = concatDeltas ds ∧
    (jsTrim (concatDeltas ds) ≠ "" →
      (ChatTsx.chatCompleteListener (runDeltasA st ds) ev).messages =
        st.messages ++
          [{ id := none, role := "assistant", content := concatDeltas ds,
             isPinned := none, systemPromptType := none }]) := by
  have h := runDeltasA_eq ds st
  have hcur : (runDeltasA st ds).currentResponse = concatDeltas ds := by
    rw [h, hbuf]
    simp
  refine ⟨hcur, fun hne => ?_⟩
  have hc := chatTsx_complete_commits (runDeltasA st ds) ev (by rw [hcur]; exact hne)
  rw [hc, hcur, h]

/-- Claim C1 witness: deltas Hel, lo-comma-space, world commit exactly the
message Hello, world. -/
theorem c1_witness :
    (ChatTsx.chatCompleteListener
        (runDeltasA freshState [deltaEvent "Hel", deltaEvent "lo, ", deltaEvent "world"])
        (deltaEvent "")).messages =
      freshState.messages ++
        [{ id := none, role := "assistant",
           content := concatDeltas [deltaEvent "Hel", deltaEvent "lo, ", deltaEvent "world"],
           isPinned := none, systemPromptType := none }] :=
  (c1_delta_concatenation freshState
    [deltaEvent "Hel", deltaEvent "lo, ", deltaEvent "world"]
    (deltaEvent "") rfl).2 (by decide)

/-- Claim C2 counterexample: in the Chat.tsx revision, a token finalized
by a cancellation event (generation flag already cleared) still commits a
message when a generation-complete event later arrives for it, because
the cancellation marker left in the buffer trims non-empty.  The claim
asserts no additional message is appended. -/
theorem c2_counterexample :
    (ChatTsx.chatCancelledListener freshState).isGenerating = false ∧
    (ChatTsx.chatCompleteListener (ChatTsx.chatCancelledListener freshState)
        (deltaEvent "")).messages =
      [{ id := none, role := "assistant", content := "\n[Generation cancelled]",
         isPinned := none, systemPromptType := none }] := by
  decide

/-- Claim C2 (amended): in the Chat.tsx revision, once a correlation token
is finalized by a completion event, delivering a further generation-complete
or generation-cancelled event appends no additional message and sets no
error.  (The original claim also covered tokens finalized by cancellation,
which the counterexample refutes; part_009 in turn duplicates the message
on a repeated completion event.) -/
theorem c2_idempotent_after_complete (st : ChatState) (ev1 ev2 : ChatResponse) :
    (ChatTsx.chatCompleteListener (ChatTsx.chatCompleteListener st ev1) ev2).messages =
      (ChatTsx.chatCompleteListener st ev1).messages ∧
    (ChatTsx.chatCompleteListener (ChatTsx.chatCompleteListener st ev1) ev2).error =
      (ChatTsx.chatCompleteListener st ev1).error ∧
    (ChatTsx.chatCancelledListener (ChatTsx.chatCompleteListener st ev1)).messages =
      (ChatTsx.chatCompleteListener st ev1).messages ∧
    (ChatTsx.chatCancelledListener (ChatTsx.chatCompleteListener st ev1)).error =
      (ChatTsx.chatCompleteListener st ev1).error := by
  have hclear := chatTsx_complete_clears st ev1
  refine ⟨?_, ?_, rfl, rfl⟩
  · exact chatTsx_complete_skips _ ev2 (by rw [hclear.1]; rfl)
  · exact (chatTsx_complete_clears _ ev2).2

/-- A partially streamed generation: the buffer holds Partial, generation
in flight. -/
def c3PartialState : ChatState :=
  { messages := [], currentInput := "", isGenerating := true,
    currentResponse := "Partial", error := none, followUps := [] }

/-- Claim C3 counterexample: in the Chat.tsx revision, a cancellation
event with buffer Partial adds no message at all (the claim asserts the
list gains exactly one assistant message with content Partial); instead a
cancellation marker is appended to the still-uncleared buffer. -/
theorem c3_counterexample :
    c3PartialState.isGenerating = true ∧
    c3PartialState.currentResponse = "Partial" ∧
    (ChatTsx.chatCancelledListener c3PartialState).messages = [] ∧
    (ChatTsx.chatCancelledListener c3PartialState).currentResponse =
      "Partial\n[Generation cancelled]" := by
  decide

/-- The assistant message the part_009 revision commits for the given
content. -/
def assistantOf (content : String) : ChatMessage :=
  { id := none, role := "assistant", content := content, isPinned := some false,
    systemPromptType := none }

/-- Claim C3 (amended): in the part_009 revision, a generation-cancelled
event commits the non-empty buffer as exactly one new assistant message
(and commits nothing when the buffer is empty); in both cases the
generation flag clears and the buffer is cleared.  (The Chat.tsx revision
violates the claim, per the counterexample.) -/
theorem c3_cancel_commits_buffer (st : ChatState) :
    (st.currentResponse ≠ "" →
      (Part009.chatCancelledListener st).messages =
        st.messages ++ [assistantOf st.currentResponse]) ∧
    (st.currentResponse = "" →
      (Part009.chatCancelledListener st).messages = st.messages) ∧
    (Part009.chatCancelledListener st).isGenerating = false ∧
    (Part009.chatCancelledListener st).currentResponse = "" := by
  unfold Part009.chatCancelledListener assistantOf
  by_cases h : st.currentResponse = "" <;> simp [h]

/-- Claim C3 witness: cancelling with buffer Partial commits it; cancelling
with an empty buffer commits nothing. -/
theorem c3_witness :
    (Part009.chatCancelledListener c3PartialState).messages =
      c3PartialState.messages ++ [assistantOf c3PartialState.currentResponse] ∧
    (Part009.chatCancelledListener freshState).messages = freshState.messages :=
  ⟨(c3_cancel_commits_buffer c3PartialState).1 (by decide),
   (c3_cancel_commits_buffer freshState).2.1 rfl⟩

/-- Claim C10: when the completion event's final message content equals
the concatenation of the delivered deltas and that concatenation is
non-empty after trimming, the Chat.tsx completion handler (committing the
locally accumulated buffer) and the part_009 completion handler
(committing the event payload) append assistant messages with the same
content. -/
theorem c10_complete_handlers_agree (stA stB : ChatState)
    (ds : List ChatResponse) (ev : ChatResponse)
    (hbufA : stA.currentResponse = "")
    (hev : ev.message.content = concatDeltas ds)
    (hne : jsTrim (concatDeltas ds) ≠ "") :
    (ChatTsx.chatCompleteListener (runDeltasA stA ds) ev).messages =
      stA.messages ++
        [{ id := none, role := "assistant", content := concatDeltas ds,
           isPinned := none, systemPromptType := none }] ∧
    (Part009.chatCompleteListener (runDeltasB stB ds) ev).messages =
      stB.messages ++
        [{ id := none, role := "assistant", content := concatDeltas ds,
           isPinned := some false, systemPromptType := none }] := by
  constructor
  · have hcur : (runDeltasA stA ds).currentResponse = concatDeltas ds := by
      rw [runDeltasA_eq ds stA, hbufA]
      simp
    have hc := chatTsx_complete_commits (runDeltasA stA ds) ev
      (by rw [hcur]; exact hne)
    rw [hc, hcur, runDeltasA_eq ds stA]
  · have hmsg := runDeltasB_messages ds stB
    unfold Part009.chatCompleteListener
    cases hfu : ev.follow_ups <;> simp [hfu, hmsg, hev]

/-- Claim C10 witness: deltas Hel, lo with a final payload Hello commit
the same content through both revisions. -/
theorem c10_witness :
    (ChatTsx.chatCompleteListener
        (runDeltasA freshState [deltaEvent "Hel", deltaEvent "lo"])
        (deltaEvent "Hello")).messages =
      freshState.messages ++
        [{ id := none, role := "assistant",
           content := concatDeltas [deltaEvent "Hel", deltaEvent "lo"],
           isPinned := none, systemPromptType := none }] ∧
    (Part009.chatCompleteListener
        (runDeltasB freshState [deltaEvent "Hel", deltaEvent "lo"])
        (deltaEvent "Hello")).messages =
      freshState.messages ++
        [{ id := none, role := "assistant",
           content := concatDeltas [deltaEvent "Hel", deltaEvent "lo"],
           isPinned := some false, systemPromptType := none }] :=
  c10_complete_handlers_agree freshState freshState
    [deltaEvent "Hel", deltaEvent "lo"] (deltaEvent "Hello")
    rfl (by decide) (by decide)

end CortexChat

namespace CortexChat

/-- Demo props used by concrete witnesses. -/
def demoProps : ChatProps := { modelName := "llama3", chatId := some "chat-1" }

/-- A session at rest with a typed, non-empty input. -/
def idleState : ChatState :=
  { messages := [], currentInput := "Hello", isGenerating := false,
    currentResponse := "", error := none, followUps := [] }

/-- Claim C5: a send in a retrieval-augmented mode whose search
collaborator rejects dispatches no generation request, sets the session
error state, clears the generation flag, and leaves the message list
untouched — it is not downgraded to an unaugmented generation
(Chat.tsx `sendMessage`, web-search branch). -/
theorem c5_search_failure_aborts (props : ChatProps) (modeId sm : String)
    (params : ModelParams) (uuid : String) (co : Except String Unit)
    (st : ChatState) (e : String)
    (hweb : isWebSearchEnabled modeId = true)
    (hinput : jsTrim st.currentInput ≠ "")
    (hgen : st.isGenerating = false) :
    ChatTsx.sendMessage props modeId sm params uuid (Except.error e) co st =
      ({ st with currentInput := "", isGenerating := false,
                 error := some ("Search failed: " ++ e) }, []) := by
  unfold ChatTsx.sendMessage
  have hng : ¬(jsTrim st.currentInput = "" ∨ st.isGenerating = true) := by
    rintro (hc | hc)
    · exact hinput hc
    · rw [hgen] at hc
      exact Bool.false_ne_true hc
  rw [if_neg hng, if_pos hweb]

/-- Claim C5 witness: with the Internet focus mode and a rejecting search
collaborator, the send aborts with an error and no dispatch. -/
theorem c5_witness :
    ChatTsx.sendMessage demoProps "web" "general" defaultModelParams "u1"
        (Except.error "network down") (Except.ok ()) idleState =
      ({ idleState with currentInput := "", isGenerating := false,
                        error := some ("Search failed: " ++ "network down") }, []) :=
  c5_search_failure_aborts demoProps "web" "general" defaultModelParams "u1"
    (Except.ok ()) idleState "network down" (by decide) (by decide) rfl

/-- A message already persisted with a known id. -/
def staleMessage : ChatMessage :=
  { id := some "m1", role := "user", content := "old", isPinned := some false,
    systemPromptType := none }

/-- A session currently displaying one message. -/
def staleState : ChatState :=
  { messages := [staleMessage], currentInput := "", isGenerating := false,
    currentResponse := "", error := none, followUps := [] }

/-- Claim C8 counterexample: when the history load rejects, the session
keeps its previously displayed message list (here, one stale message) —
the claim asserts the list becomes empty.  The visible error is set. -/
theorem c8_counterexample :
    (loadChatHistory staleState (some "chat-1") (Except.error "db down")).messages =
      [staleMessage] ∧
    [staleMessage] ≠ ([] : List ChatMessage) ∧
    (loadChatHistory staleState (some "chat-1") (Except.error "db down")).error =
      some ("Failed to load chat history: " ++ "db down") := by
  decide

/-- Claim C8 (amended): for every session whose history load fails, a
visible error is set and the in-memory message list is left exactly as it
was — the previously displayed (stale) list is retained, not replaced by
an empty one. -/
theorem c8_load_failure_keeps_stale (st : ChatState) (cid e : String)
    (hcid : cid ≠ "") :
    loadChatHistory st (some cid) (Except.error e) =
      { st with error := some ("Failed to load chat history: " ++ e) } := by
  unfold loadChatHistory truthyStr
  simp [hcid]

/-- Claim C8 witness: a failing load on a populated session sets the error
and keeps the message list. -/
theorem c8_witness :
    loadChatHistory staleState (some "chat-1") (Except.error "db down") =
      { staleState with
        error := some ("Failed to load chat history: " ++ "db down") } :=
  c8_load_failure_keeps_stale staleState "chat-1" "db down" (by decide)

/-- Fetching the element at a just-set position. -/
lemma get?_set_self {α : Type} (l : List α) (a : α) (i : Nat) (h : i < l.length) :
    (l.set i a).get? i = some a := by
  simp [List.get?_eq_getElem?, List.getElem?_set_self', List.getElem?_eq_getElem h]

/-- Successful toggle: the message at the index gets its pin flag
flipped, everything else is unchanged. -/
lemma toggleMessagePin_ok (s : ChatState) (idx : Nat) (m : ChatMessage)
    (hm : s.messages.get? idx = some m) :
    toggleMessagePin s idx (Except.ok ()) =
      { s with
        messages := s.messages.set idx
          ({ m with isPinned := some (!(m.isPinned.getD false)) }) } := by
  unfold toggleMessagePin
  rw [hm]

/-- Failed toggle on a present message: only the error signal changes. -/
lemma toggleMessagePin_error (s : ChatState) (idx : Nat) (m : ChatMessage)
    (e : String) (hm : s.messages.get? idx = some m) :
    toggleMessagePin s idx (Except.error e) =
      { s with error := some ("Failed to toggle message pin: " ++ e) } := by
  unfold toggleMessagePin
  rw [hm]

/-- Claim C9: toggling the pin of a present message with a successful
backend acknowledgment flips its (normalized) pin flag; a second
successful toggle restores it (involution); and on a backend failure the
message list is unchanged — the local flip happens only after the remote
toggle succeeds. -/
theorem c9_pin_toggle_involution (st : ChatState) (idx : Nat)
    (h : idx < st.messages.length) :
    pinnedAt (toggleMessagePin st idx (Except.ok ())).messages idx =
      some (!((st.messages.get ⟨idx, h⟩).isPinned.getD false)) ∧
    pinnedAt (toggleMessagePin (toggleMessagePin st idx (Except.ok ()))
        idx (Except.ok ())).messages idx =
      some ((st.messages.get ⟨idx, h⟩).isPinned.getD false) ∧
    ∀ e, (toggleMessagePin st idx (Except.error e)).messages = st.messages := by
  have hget : st.messages.get? idx = some (st.messages.get ⟨idx, h⟩) :=
    List.get?_eq_get h
  have h1 := toggleMessagePin_ok st idx _ hget
  have hlen : idx < ((toggleMessagePin st idx (Except.ok ())).messages).length := by
    rw [h1]
    simpa [List.length_set] using h
  have hget2 : ((toggleMessagePin st idx (Except.ok ())).messages).get? idx =
      some ({ st.messages.get ⟨idx, h⟩ with
              isPinned := some (!((st.messages.get ⟨idx, h⟩).isPinned.getD false)) }) := by
    rw [h1]
    exact get?_set_self _ _ _ h
  have h2 := toggleMessagePin_ok (toggleMessagePin st idx (Except.ok ())) idx _ hget2
  refine ⟨?_, ?_, ?_⟩
  · rw [h1]
    unfold pinnedAt
    rw [get?_set_self _ _ _ h]
    rfl
  · rw [h2]
    unfold pinnedAt
    rw [get?_set_self _ _ _ hlen]
    simp
  · intro e
    rw [toggleMessagePin_error st idx _ e hget]

/-- A session holding one unpinned message. -/
def pinState : ChatState :=
  { messages := [{ id := some "m1", role := "user", content := "hi",
                   isPinned := some false, systemPromptType := none }],
    currentInput := "", isGenerating := false, currentResponse := "",
    error := none, followUps := [] }

/-- Claim C9 witness: an unpinned message becomes pinned after one
acknowledged toggle and unpinned again after a second. -/
theorem c9_witness :
    pinnedAt (toggleMessagePin pinState 0 (Except.ok ())).messages 0 = some true ∧
    pinnedAt (toggleMessagePin (toggleMessagePin pinState 0 (Except.ok ()))
        0 (Except.ok ())).messages 0 = some false := by
  have h := c9_pin_toggle_involution pinState 0 (by decide)
  exact ⟨h.1.trans (by decide), h.2.1.trans (by decide)⟩

end CortexChat

namespace CortexChat

/-- The send guard of Chat.tsx: empty-after-trim input or an in-flight
generation makes the call a silent no-op with no dispatch. -/
lemma sendMessageA_guard (props : ChatProps) (modeId sm : String)
    (params : ModelParams) (uuid : String)
    (so : Except String SearchResponse) (co : Except String Unit)
    (st : ChatState)
    (hg : jsTrim st.currentInput = "" ∨ st.isGenerating = true) :
    ChatTsx.sendMessage props modeId sm params uuid so co st = (st, []) := by
  unfold ChatTsx.sendMessage
  rcases hg with hg | hg <;> simp [hg]

/-- Shape of every Chat.tsx send: at most one request is dispatched, a
dispatch leaves the generation flag set, and the message list is either
unchanged or extended by one appended message. -/
lemma sendMessageA_shape (props : ChatProps) (modeId sm : String)
    (params : ModelParams) (uuid : String)
    (so : Except String SearchResponse) (co : Except String Unit)
    (st : ChatState) :
    ((ChatTsx.sendMessage props modeId sm params uuid so co st).2.length ≤ 1) ∧
    ((ChatTsx.sendMessage props modeId sm params uuid so co st).2 ≠ [] →
      (ChatTsx.sendMessage props modeId sm params uuid so co st).1.isGenerating = true) ∧
    ((ChatTsx.sendMessage props modeId sm params uuid so co st).1.messages = st.messages ∨
     ∃ um, (ChatTsx.sendMessage props modeId sm params uuid so co st).1.messages =
        st.messages ++ [um]) := by
  unfold ChatTsx.sendMessage
  by_cases hg : jsTrim st.currentInput = "" ∨ st.isGenerating = true
  · simp [hg]
  · by_cases hw : isWebSearchEnabled modeId = true
    · cases so with
      | error e => simp [hg, hw]
      | ok sr =>
        cases co with
        | ok u => simp [hg, hw]
        | error e2 => simp [hg, hw]
    · cases co with
      | ok u => simp [hg, hw]
      | error e2 => simp [hg, hw]

/-- Shape of every part_009 send: the message list is either unchanged or
extended by one appended message. -/
lemma sendMessageB_shape (props : ChatProps) (modeId selectedModel : String)
    (params : ModelParams) (instanceId : String) (co : Except String Unit)
    (st : ChatState) :
    (Part009.sendMessage props modeId selectedModel params instanceId co st).1.messages =
        st.messages ∨
    ∃ um, (Part009.sendMessage props modeId selectedModel params instanceId co st).1.messages =
        st.messages ++ [um] := by
  unfold Part009.sendMessage
  by_cases hg : jsTrim st.currentInput = "" ∨ st.isGenerating = true
  · simp [hg]
  · cases co with
    | ok u => simp [hg]
    | error e => simp [hg]

/-- Claim C4: a send with input empty after trimming, or issued while a
generation is already in flight, is a silent no-op (state unchanged, no
request dispatched, no error set); every send dispatches at most one
request; a dispatching send leaves the generation flag set; hence a second
send issued before any completion dispatches nothing — at most one
generation request is live per session. -/
theorem c4_at_most_one_in_flight :
    (∀ (props : ChatProps) (modeId sm : String) (params : ModelParams)
        (uuid : String) (so : Except String SearchResponse)
        (co : Except String Unit) (st : ChatState),
      jsTrim st.currentInput = "" ∨ st.isGenerating = true →
      ChatTsx.sendMessage props modeId sm params uuid so co st = (st, [])) ∧
    (∀ (props : ChatProps) (modeId sm : String) (params : ModelParams)
        (uuid : String) (so : Except String SearchResponse)
        (co : Except String Unit) (st : ChatState),
      (ChatTsx.sendMessage props modeId sm params uuid so co st).2.length ≤ 1) ∧
    (∀ (props : ChatProps) (modeId sm : String) (params : ModelParams)
        (uuid : String) (so : Except String SearchResponse)
        (co : Except String Unit) (st : ChatState),
      (ChatTsx.sendMessage props modeId sm params uuid so co st).2 ≠ [] →
      (ChatTsx.sendMessage props modeId sm params uuid so co st).1.isGenerating = true) ∧
    (∀ (props : ChatProps) (modeId sm : String) (params : ModelParams)
        (uuid : String) (so : Except String SearchResponse)
        (co : Except String Unit) (st : ChatState)
        (props2 : ChatProps) (modeId2 sm2 : String) (params2 : ModelParams)
        (uuid2 : String) (so2 : Except String SearchResponse)
        (co2 : Except String Unit) (input2 : String),
      (ChatTsx.sendMessage props modeId sm params uuid so co st).2 ≠ [] →
      (ChatTsx.sendMessage props2 modeId2 sm2 params2 uuid2 so2 co2
        { (ChatTsx.sendMessage props modeId sm params uuid so co st).1 with
          currentInput := input2 }).2 = ([] : List GenerationRequest)) := by
  refine ⟨?_, ?_, ?_, ?_⟩
  · intro props modeId sm params uuid so co st hg
    exact sendMessageA_guard props modeId sm params uuid so co st hg
  · intro props modeId sm params uuid so co st
    exact (sendMessageA_shape props modeId sm params uuid so co st).1
  · intro props modeId sm params uuid so co st
    exact (sendMessageA_shape props modeId sm params uuid so co st).2.1
  · intro props modeId sm params uuid so co st props2 modeId2 sm2 params2
      uuid2 so2 co2 input2 hne
    have hg2 : ({ (ChatTsx.sendMessage props modeId sm params uuid so co st).1 with
        currentInput := input2 } : ChatState).isGenerating = true :=
      (sendMessageA_shape props modeId sm params uuid so co st).2.1 hne
    rw [sendMessageA_guard props2 modeId2 sm2 params2 uuid2 so2 co2 _ (Or.inr hg2)]

/-- A session already generating. -/
def busyState : ChatState := { idleState with isGenerating := true }

/-- Claim C4 witness: a send while generating is a no-op, a valid send
dispatches, and a second send right after it dispatches nothing. -/
theorem c4_witness :
    ChatTsx.sendMessage demoProps "chat" "" defaultModelParams "u1"
        (Except.ok { results := [], query := "" }) (Except.ok ()) busyState =
      (busyState, []) ∧
    (ChatTsx.sendMessage demoProps "chat" "" defaultModelParams "u1"
        (Except.ok { results := [], query := "" }) (Except.ok ()) idleState).2 ≠ [] ∧
    (ChatTsx.sendMessage demoProps "chat" "" defaultModelParams "u2"
        (Except.ok { results := [], query := "" }) (Except.ok ())
        { (ChatTsx.sendMessage demoProps "chat" "" defaultModelParams "u1"
            (Except.ok { results := [], query := "" }) (Except.ok ()) idleState).1 with
          currentInput := "again" }).2 = ([] : List GenerationRequest) := by
  refine ⟨?_, ?_, ?_⟩
  · exact c4_at_most_one_in_flight.1 demoProps "chat" "" defaultModelParams "u1"
      (Except.ok { results := [], query := "" }) (Except.ok ()) busyState (Or.inr rfl)
  · decide
  · exact c4_at_most_one_in_flight.2.2.2 demoProps "chat" "" defaultModelParams "u1"
      (Except.ok { results := [], query := "" }) (Except.ok ()) idleState
      demoProps "chat" "" defaultModelParams "u2"
      (Except.ok { results := [], query := "" }) (Except.ok ()) "again" (by decide)

/-- Appending the same prefix keeps distinct strings distinct. -/
lemma string_append_left_ne {p a b : String} (h : a ≠ b) : p ++ a ≠ p ++ b := by
  intro hc
  apply h
  have hd := congrArg String.data hc
  simp [String.data_append] at hd
  exact String.ext hd

/-- Scoped delivery never changes which instance a session is. -/
lemma deliverScoped_instanceId (s : SessionInstance) (e : BackendEvent) :
    (deliverScoped s e).instanceId = s.instanceId := by
  cases e with
  | response t p =>
    simp only [deliverScoped]
    split <;> rfl
  | complete t p =>
    simp only [deliverScoped]
    split <;> rfl
  | cancelled t =>
    simp only [deliverScoped]
    split <;> rfl

/-- Scoped delivery of an event tagged with a different token is the
identity on a session instance. -/
lemma deliverScoped_ne {s : SessionInstance} {e : BackendEvent}
    (h : e.tid ≠ s.instanceId) : deliverScoped s e = s := by
  cases e with
  | response t p =>
    simp only [BackendEvent.tid] at h
    simp only [deliverScoped]
    rw [if_neg (string_append_left_ne h)]
  | complete t p =>
    simp only [BackendEvent.tid] at h
    simp only [deliverScoped]
    rw [if_neg (string_append_left_ne h)]
  | cancelled t =>
    simp only [BackendEvent.tid] at h
    simp only [deliverScoped]
    rw [if_neg (string_append_left_ne h)]

/-- Claim C6 (amended): under the part_009 instanceId-scoped listener
registration, an event tagged with another session's correlation token
leaves a session untouched, and a session's state after any event stream
depends only on the events tagged with its own token.  (The Chat.tsx
revision registers globally named listeners, so every instance consumes
every event — refuted by the counterexample.) -/
theorem c6_token_scoped_isolation :
    (∀ (w : TwoSessions) (e : BackendEvent),
      e.tid ≠ w.b.instanceId → (deliverScopedWorld w e).b = w.b) ∧
    (∀ (w : TwoSessions) (es : List BackendEvent),
      (runScopedWorld w es).b =
        (es.filter (fun e => e.tid = w.b.instanceId)).foldl deliverScoped w.b) := by
  refine ⟨?_, ?_⟩
  · intro w e h
    exact deliverScoped_ne h
  · intro w es
    induction es generalizing w with
    | nil => rfl
    | cons e es ih =>
      have h1 : runScopedWorld w (e :: es) =
          runScopedWorld (deliverScopedWorld w e) es := rfl
      rw [h1, ih]
      have hid : (deliverScopedWorld w e).b.instanceId = w.b.instanceId :=
        deliverScoped_instanceId w.b e
      by_cases hc : e.tid = w.b.instanceId
      · simp only [hid, List.filter_cons, hc]
        simp
        rfl
      · simp only [hid, List.filter_cons, hc]
        simp only [decide_False]
        rw [show (deliverScopedWorld w e).b = w.b from deliverScoped_ne hc]
        simp

/-- Two concurrently mounted sessions with distinct correlation tokens. -/
def worldAB : TwoSessions :=
  { a := { instanceId := "session-a", state := freshState },
    b := { instanceId := "session-b", state := freshState } }

/-- Claim C6 witness: a delta tagged for session A leaves session B
untouched under scoped registration. -/
theorem c6_witness :
    (deliverScopedWorld worldAB
        (BackendEvent.response "session-a" (deltaEvent "X"))).b = worldAB.b :=
  c6_token_scoped_isolation.1 worldAB
    (BackendEvent.response "session-a" (deltaEvent "X")) (by decide)

/-- Claim C6 counterexample: under the Chat.tsx global listener names, a
content-delta belonging to session A lands in session B's accumulator as
well — B's buffer changes from empty to X. -/
theorem c6_counterexample :
    worldAB.a.instanceId ≠ worldAB.b.instanceId ∧
    worldAB.b.state.currentResponse = "" ∧
    (deliverGlobalWorld worldAB
        (BackendEvent.response "session-a" (deltaEvent "X"))).b.state.currentResponse =
      "X" := by
  decide

end CortexChat

namespace CortexChat

/-- Preservation is reflexive. -/
lemma preservesMessages_refl (l : List ChatMessage) : preservesMessages l l := by
  refine ⟨le_refl _, ?_⟩
  intro i h
  have he : l.get ⟨i.val, h⟩ = l.get i := by
    congr 1
  rw [he]
  exact ⟨rfl, rfl, rfl, rfl⟩

/-- Appending at the end preserves every existing message verbatim. -/
lemma preservesMessages_append (l t : List ChatMessage) :
    preservesMessages l (l ++ t) := by
  refine ⟨by simp, ?_⟩
  intro i h
  have he : (l ++ t).get ⟨i.val, h⟩ = l.get i := by
    rw [List.get_eq_getElem, List.get_eq_getElem]
    exact List.getElem_append_left i.isLt
  rw [he]
  exact ⟨rfl, rfl, rfl, rfl⟩

/-- Overwriting one position with a pin-only variant of the message that
was there preserves the list up to pin flags. -/
lemma preservesMessages_set_pin (l : List ChatMessage) (idx : Nat)
    (m : ChatMessage) (hm : l.get? idx = some m) (p : Option Bool) :
    preservesMessages l (l.set idx ({ m with isPinned := p })) := by
  refine ⟨by simp [List.length_set], ?_⟩
  intro i h
  by_cases hc : idx = i.val
  · subst hc
    have hset : (l.set i.val ({ m with isPinned := p })).get ⟨i.val, h⟩ =
        { m with isPinned := p } := by
      rw [List.get_eq_getElem]
      exact List.getElem_set_self h
    have hold : l.get i = m := by
      have hg : l.get? i.val = some (l.get ⟨i.val, i.isLt⟩) := List.get?_eq_get i.isLt
      rw [hg] at hm
      have h2 := Option.some.inj hm
      rw [show (⟨i.val, i.isLt⟩ : Fin l.length) = i from Fin.ext rfl] at h2
      exact h2
    rw [hset, hold]
    exact ⟨rfl, rfl, rfl, rfl⟩
  · have hset : (l.set idx ({ m with isPinned := p })).get ⟨i.val, h⟩ = l.get i := by
      rw [List.get_eq_getElem, List.get_eq_getElem]
      exact List.getElem_set_ne hc h
    rw [hset]
    exact ⟨rfl, rfl, rfl, rfl⟩

/-- Claim C7: every operation on a session state — committing a streamed
assistant message (either revision's completion listener), finalizing on
cancellation, toggling a pin, or sending a user message — keeps every
previously appended message in place and in order, removes nothing, and
mutates no field of an existing message other than `isPinned`. -/
theorem c7_messages_append_only :
    (∀ (st : ChatState) (ev : ChatResponse),
      preservesMessages st.messages (ChatTsx.chatCompleteListener st ev).messages) ∧
    (∀ (st : ChatState) (ev : ChatResponse),
      preservesMessages st.messages (Part009.chatCompleteListener st ev).messages) ∧
    (∀ st : ChatState,
      preservesMessages st.messages (ChatTsx.chatCancelledListener st).messages) ∧
    (∀ st : ChatState,
      preservesMessages st.messages (Part009.chatCancelledListener st).messages) ∧
    (∀ (st : ChatState) (idx : Nat) (b : Except String Unit),
      preservesMessages st.messages (toggleMessagePin st idx b).messages) ∧
    (∀ (props : ChatProps) (modeId sm : String) (params : ModelParams)
        (uuid : String) (so : Except String SearchResponse)
        (co : Except String Unit) (st : ChatState),
      preservesMessages st.messages
        (ChatTsx.sendMessage props modeId sm params uuid so co st).1.messages) ∧
    (∀ (props : ChatProps) (modeId selectedModel : String) (params : ModelParams)
        (instanceId : String) (co : Except String Unit) (st : ChatState),
      preservesMessages st.messages
        (Part009.sendMessage props modeId selectedModel params instanceId co st).1.messages) := by
  refine ⟨?_, ?_, ?_, ?_, ?_, ?_, ?_⟩
  · intro st ev
    by_cases hcase : jsTrim st.currentResponse = ""
    · rw [chatTsx_complete_skips st ev hcase]
      exact preservesMessages_refl _
    · rw [chatTsx_complete_commits st ev hcase]
      exact preservesMessages_append _ _
  · intro st ev
    unfold Part009.chatCompleteListener
    cases hfu : ev.follow_ups <;> simp only [hfu] <;>
      exact preservesMessages_append _ _
  · intro st
    exact preservesMessages_refl st.messages
  · intro st
    by_cases hcr : st.currentResponse = ""
    · have hmsg : (Part009.chatCancelledListener st).messages = st.messages := by
        unfold Part009.chatCancelledListener
        simp [hcr]
      rw [hmsg]
      exact preservesMessages_refl st.messages
    · have hmsg : (Part009.chatCancelledListener st).messages =
          st.messages ++ [assistantOf st.currentResponse] := by
        unfold Part009.chatCancelledListener assistantOf
        simp [hcr]
      rw [hmsg]
      exact preservesMessages_append _ _
  · intro st idx b
    cases hm : st.messages.get? idx with
    | none =>
      unfold toggleMessagePin
      rw [hm]
      exact preservesMessages_refl st.messages
    | some m =>
      cases b with
      | ok u =>
        cases u
        rw [toggleMessagePin_ok st idx m hm]
        exact preservesMessages_set_pin st.messages idx m hm _
      | error e =>
        rw [toggleMessagePin_error st idx m e hm]
        exact preservesMessages_refl st.messages
  · intro props modeId sm params uuid so co st
    rcases (sendMessageA_shape props modeId sm params uuid so co st).2.2 with hm | ⟨um, hm⟩
    · rw [hm]
      exact preservesMessages_refl st.messages
    · rw [hm]
      exact preservesMessages_append _ _
  · intro props modeId selectedModel params instanceId co st
    rcases sendMessageB_shape props modeId selectedModel params instanceId co st with hm | ⟨um, hm⟩
    · rw [hm]
      exact preservesMessages_refl st.messages
    · rw [hm]
      exact preservesMessages_append _ _

/-- Claim C7 witness: a pin toggle on a concrete one-message store
preserves the store up to pin flags. -/
theorem c7_witness :
    preservesMessages pinState.messages
      (toggleMessagePin pinState 0 (Except.ok ())).messages :=
  c7_messages_append_only.2.2.2.2.1 pinState 0 (Except.ok ())

end CortexChat
